import Mathlib

/-!
Verification of the registration/authorization data flow of the
silicon-mile event-registration application: the access-control gate of
the admin page, the admin table's client-side filter and CSV export, the
multi-step registration form, and the dashboard's registered/unregistered
branching.  Strings are Lean strings; the JavaScript string operations
actually used by the code (toLowerCase, trim, includes on ASCII data) are
modelled explicitly below.
-/

namespace SiliconMile

/-- JavaScript `String.prototype.toLowerCase` restricted to the ASCII
range, which is all the code relies on. -/
def jsToLower (s : String) : String :=
  ⟨s.data.map Char.toLower⟩

/-- Characters treated as whitespace by JavaScript `String.prototype.trim`
(the ASCII ones; the code never produces the exotic Unicode spaces). -/
def isJsSpace (c : Char) : Bool :=
  c == ' ' || c == '\t' || c == '\n' || c == '\r' || c == '\x0b' || c == '\x0c'

/-- JavaScript `String.prototype.trim`: drop whitespace from both ends. -/
def jsTrim (s : String) : String :=
  ⟨((s.data.dropWhile isJsSpace).reverse.dropWhile isJsSpace).reverse⟩

/-- Does the second list occur at the head of the first? -/
def leadsWith : List Char → List Char → Bool
  | _, [] => true
  | [], _ :: _ => false
  | c :: s, d :: t => c == d && leadsWith s t

/-- Does `pat` occur contiguously anywhere inside `s`?  (JavaScript
`String.prototype.includes`, on the underlying character lists.) -/
def containsSub : List Char → List Char → Bool
  | [], pat => pat.isEmpty
  | c :: s, pat => leadsWith (c :: s) pat || containsSub s pat

/-- JavaScript `String.prototype.includes`. -/
def jsIncludes (s pat : String) : Bool :=
  containsSub s.data pat.data

/-- A row of the `registrations` table, as declared by the `Registration`
interface in `components/admin-table.tsx`. -/
structure Registration where
  id : String
  user_id : String
  full_name : String
  corporate_email : String
  employee_id : String
  company_name : String
  tshirt_size : String
  emergency_contact : String
  emergency_phone : String
  registration_date : String
  status : String
deriving DecidableEq

/-- The `filteredRegistrations` memo of `components/admin-table.tsx`:
if the trimmed search query is empty the row set is returned unchanged,
otherwise rows are kept when the lower-cased company name contains the
lower-cased (untrimmed) query. -/
def filteredRegistrations (registrations : List Registration)
    (searchQuery : String) : List Registration :=
  if jsTrim searchQuery = "" then
    registrations
  else
    registrations.filter fun reg =>
      jsIncludes (jsToLower reg.company_name) (jsToLower searchQuery)

/-- JavaScript `Array.prototype.join(sep)`: elements concatenated with
the separator between consecutive elements; empty array gives `""`. -/
def joinSep (sep : String) : List String → String
  | [] => ""
  | [a] => a
  | a :: b :: rest => a ++ sep ++ joinSep sep (b :: rest)

/-- The CSV column headers of `handleExportCSV` in
`components/admin-table.tsx`. -/
def csvHeaders : List String :=
  ["Full Name", "Corporate Email", "Employee ID", "Company Name",
   "T-shirt Size", "Emergency Contact", "Emergency Phone",
   "Registration Date", "Status"]

/-- Wrap a string in double quotes, as the template literals of
`handleExportCSV` do for the free-text fields. -/
def quoteField (s : String) : String :=
  "\"" ++ s ++ "\""

/-- The nine serialized fields of one CSV data row, in the order built by
`handleExportCSV`.  `fmtDate` stands for
`new Date(...).toLocaleDateString()`, the locale-default short-date
rendering, which is environment-dependent and therefore a parameter. -/
def csvRowFields (fmtDate : String → String) (reg : Registration) :
    List String :=
  [quoteField reg.full_name,
   quoteField reg.corporate_email,
   quoteField reg.employee_id,
   quoteField reg.company_name,
   reg.tshirt_size,
   quoteField reg.emergency_contact,
   quoteField reg.emergency_phone,
   fmtDate reg.registration_date,
   reg.status]

/-- One CSV data row: the nine fields joined by commas. -/
def csvRow (fmtDate : String → String) (reg : Registration) : String :=
  joinSep "," (csvRowFields fmtDate reg)

/-- The full CSV text produced by `handleExportCSV`: header line followed
by one row per registration passed in, all joined by newlines. -/
def csvContent (fmtDate : String → String) (rows : List Registration) :
    String :=
  joinSep "\n" (joinSep "," csvHeaders :: rows.map (csvRow fmtDate))

/-- Download filename: `registrations_` + ISO date of the export + `.csv`
(`new Date().toISOString().split("T")[0]` gives the ISO date part). -/
def exportFileName (isoDateOfExport : String) : String :=
  "registrations_" ++ isoDateOfExport ++ ".csv"

/-- `handleExportCSV` as a pure function: the (content, filename) pair it
produces, serializing the CURRENTLY FILTERED rows. -/
def exportCsv (fmtDate : String → String) (isoDateOfExport : String)
    (registrations : List Registration) (searchQuery : String) :
    String × String :=
  (csvContent fmtDate (filteredRegistrations registrations searchQuery),
   exportFileName isoDateOfExport)

/-- The authenticated user as seen by the server pages: its id and the
`user_metadata.role` field.  `none` models an absent, null or otherwise
non-string (malformed) role value reached through `user_metadata?.role`. -/
structure AuthUser where
  id : String
  role : Option String
deriving DecidableEq

/-- The JavaScript expression `user.user_metadata?.role || "user"` of
`app/admin/page.tsx`: an absent role, and the falsy empty string, default
to `"user"`. -/
def resolveRole (metaRole : Option String) : String :=
  match metaRole with
  | none => "user"
  | some r => if r = "" then "user" else r

/-- Outcome of a request to the admin page. -/
inductive AdminPageResult where
  | redirectLogin
  | redirectDashboard
  | renderTable (rows : List Registration)
deriving DecidableEq

/-- The access-control logic of `AdminPage` in `app/admin/page.tsx`:
no session user redirects to `/login`; a resolved role other than exactly
`"admin"` redirects to `/dashboard`; otherwise the fetched registrations
are rendered. -/
def adminPage (sessionUser : Option AuthUser)
    (fetchedRows : List Registration) : AdminPageResult :=
  match sessionUser with
  | none => .redirectLogin
  | some user =>
    if resolveRole user.role = "admin" then .renderTable fetchedRows
    else .redirectDashboard

/-- The order clause of the admin page's registrations query:
`.order("registration_date", { ascending: false })`. -/
structure QueryOrder where
  column : String
  ascending : Bool
deriving DecidableEq

/-- The order clause `AdminPage` sends to the store. -/
def adminQueryOrder : QueryOrder :=
  { column := "registration_date", ascending := false }

/-- What the admin page renders from the fetch result: the rows handed to
`AdminTable` and the messages written via `console.error`. -/
structure AdminRender where
  rows : List Registration
  loggedErrors : List String
deriving DecidableEq

/-- `AdminPage`'s handling of the fetch result: on success the rows are
rendered and nothing is logged; on error the error is logged and the page
still renders with `registrations || []`, i.e. zero rows. -/
def adminRenderOfFetch (res : Except String (List Registration)) :
    AdminRender :=
  match res with
  | .ok rows => { rows := rows, loggedErrors := [] }
  | .error e =>
    { rows := [], loggedErrors := ["Error fetching registrations: " ++ e] }

/-- What the dashboard page (`Dashboard`) renders for an authenticated
user: the registration form, or the status card populated with the user's
registration row. -/
inductive DashboardView where
  | registrationForm (userId : String)
  | statusCard (reg : Registration)
deriving DecidableEq

/-- The `.select("*").eq("user_id", uid).single()` query of the dashboard
page: `.single()` succeeds exactly when the user's row set is a
singleton, and errors otherwise. -/
def selectSingleByUser (db : List Registration) (uid : String) :
    Except String Registration :=
  match db.filter fun r => r.user_id == uid with
  | [r] => .ok r
  | [] => .error "PGRST116: the result contains 0 rows"
  | _ => .error "PGRST116: the result contains more than 1 row"

/-- The dashboard's branching: `hasRegistered = !!registration && !error`;
registered users get the status card built from their row, unregistered
users get the registration form. -/
def dashboardView (db : List Registration) (uid : String) : DashboardView :=
  match selectSingleByUser db uid with
  | .ok reg => .statusCard reg
  | .error _ => .registrationForm uid

/-- The registration form's field values, as in the
`RegistrationFormData` type of `components/registration-form.tsx`.
The t-shirt size is the raw value of the select element (the placeholder
option is the empty string). -/
structure RegistrationFormData where
  fullName : String
  corporateEmail : String
  employeeId : String
  companyName : String
  tshirtSize : String
  emergencyContact : String
  emergencyPhone : String
deriving DecidableEq

/-- Zod `z.string().min(2, "Full name must be at least 2 characters")`. -/
def fullNameError (s : String) : Option String :=
  if s.length < 2 then some "Full name must be at least 2 characters"
  else none

/-- Zod `z.string().email(...)`.  The well-formedness test itself lives in
the external zod library, so it is a parameter `emailValid`. -/
def corporateEmailError (emailValid : String → Bool) (s : String) :
    Option String :=
  if emailValid s then none else some "Please enter a valid email address"

/-- Zod `z.string().min(1, "Employee ID is required")`. -/
def employeeIdError (s : String) : Option String :=
  if s.length < 1 then some "Employee ID is required" else none

/-- Zod `z.string().min(2, "Company name must be at least 2 characters")`. -/
def companyNameError (s : String) : Option String :=
  if s.length < 2 then some "Company name must be at least 2 characters"
  else none

/-- Zod `z.enum(["S", "M", "L", "XL"], ...)`. -/
def tshirtSizeError (s : String) : Option String :=
  if ["S", "M", "L", "XL"].contains s then none
  else some "Please select a T-shirt size"

/-- Zod `z.string().min(2, "Emergency contact name is required")`. -/
def emergencyContactError (s : String) : Option String :=
  if s.length < 2 then some "Emergency contact name is required" else none

/-- Zod `z.string().min(10, "Emergency contact phone is required")`. -/
def emergencyPhoneError (s : String) : Option String :=
  if s.length < 10 then some "Emergency contact phone is required" else none

/-- The field-level errors surfaced by `validateStep` of
`components/registration-form.tsx` for a given step: step 1 checks
fullName, corporateEmail, employeeId; step 2 checks companyName; step 3
checks tshirtSize, emergencyContact, emergencyPhone; any other step
number checks nothing (`fields` stays empty). -/
def stepErrors (emailValid : String → Bool) (step : Nat)
    (d : RegistrationFormData) : List String :=
  (if step = 1 then
     [fullNameError d.fullName,
      corporateEmailError emailValid d.corporateEmail,
      employeeIdError d.employeeId]
   else if step = 2 then
     [companyNameError d.companyName]
   else if step = 3 then
     [tshirtSizeError d.tshirtSize,
      emergencyContactError d.emergencyContact,
      emergencyPhoneError d.emergencyPhone]
   else []).filterMap id

/-- `validateStep`: the trigger succeeds iff no field of the step has an
error. -/
def validateStep (emailValid : String → Bool) (step : Nat)
    (d : RegistrationFormData) : Bool :=
  (stepErrors emailValid step d).isEmpty

/-- `nextStep`: `if (isValid && currentStep < 3) setCurrentStep(step+1)`. -/
def nextStep (emailValid : String → Bool) (step : Nat)
    (d : RegistrationFormData) : Nat :=
  if validateStep emailValid step d && decide (step < 3) then step + 1
  else step

/-- `prevStep`: `if (currentStep > 1) setCurrentStep(step-1)`. -/
def prevStep (step : Nat) : Nat :=
  if 1 < step then step - 1 else step

/-- An error object returned by the store on a rejected insert (a
supabase `PostgrestError`); only its `message` matters to the form. -/
structure StoreError where
  message : String
deriving DecidableEq

/-- The fallback text of `onSubmit`'s catch branch. -/
def fallbackSubmitError : String :=
  "An error occurred while submitting your registration"

/-- `setError(err.message || "An error occurred while ...")`: the store's
message is shown verbatim unless it is the falsy empty string. -/
def submitErrorBanner (e : StoreError) : String :=
  if e.message = "" then fallbackSubmitError else e.message

/-- The row `onSubmit` inserts: the collected form fields, the owning
user id, the current timestamp, and status `"confirmed"` (the store fills
in the generated `id`, left empty here). -/
def insertRow (userId : String) (d : RegistrationFormData)
    (nowIso : String) : Registration :=
  { id := ""
    user_id := userId
    full_name := d.fullName
    corporate_email := d.corporateEmail
    employee_id := d.employeeId
    company_name := d.companyName
    tshirt_size := d.tshirtSize
    emergency_contact := d.emergencyContact
    emergency_phone := d.emergencyPhone
    registration_date := nowIso
    status := "confirmed" }

/-- The observable outcome of one `onSubmit` run: the form-level error
banner, the step the user is on, the loading flag after the `finally`
branch, whether `router.refresh()` was reached, and the store contents. -/
structure SubmitOutcome where
  formError : Option String
  step : Nat
  loading : Bool
  refreshTriggered : Bool
  db : List Registration
deriving DecidableEq

/-- `onSubmit` of `components/registration-form.tsx`, as a function of
the insert's result (`none` = accepted, `some e` = rejected by the
store).  On rejection the banner is set from the error message, nothing
is persisted (the store's insert is atomic), no refresh happens, and the
step is untouched; on acceptance the row is persisted and
`router.refresh()` re-fetches the registration status. -/
def onSubmit (step : Nat) (db : List Registration) (row : Registration)
    (storeResult : Option StoreError) : SubmitOutcome :=
  match storeResult with
  | some e =>
    { formError := some (submitErrorBanner e)
      step := step
      loading := false
      refreshTriggered := false
      db := db }
  | none =>
    { formError := none
      step := step
      loading := false
      refreshTriggered := true
      db := db ++ [row] }

/-- The client-side state of one `RegistrationForm` instance, plus a
ghost counter `inFlight` of inserts issued but not yet resolved.  In the
source, `loading` is set to `true` synchronously at the start of
`onSubmit` and back to `false` in its `finally` branch. -/
structure PipelineState where
  currentStep : Nat
  loading : Bool
  error : Option String
  inFlight : Nat
deriving DecidableEq

/-- Initial state: step 1, not loading, no error, nothing in flight. -/
def pipelineInit : PipelineState :=
  { currentStep := 1, loading := false, error := none, inFlight := 0 }

/-- User-visible events on the form.  `next` and `submitClick` carry the
outcome of the (data-dependent) validation as a boolean; `submitResolve`
carries the store's answer to the in-flight insert. -/
inductive FormEvent where
  | next (isValid : Bool)
  | prev
  | submitClick (formValid : Bool)
  | submitResolve (storeResult : Option StoreError)
deriving DecidableEq

/-- One transition of the form.
`next`: advance only when valid and below step 3, clearing the banner.
`prev`: go back only above step 1, clearing the banner.
`submitClick`: the submit button carries `disabled={loading}`, so a click
while an insert is in flight does nothing; otherwise `handleSubmit` runs
`onSubmit` only when the whole form validates, which clears the banner,
sets `loading`, and issues one insert.
`submitResolve`: the in-flight insert resolves; the banner is set from
the store's answer and `loading` drops in the `finally` branch. -/
def pipelineStep (s : PipelineState) (ev : FormEvent) : PipelineState :=
  match ev with
  | .next isValid =>
    if isValid && decide (s.currentStep < 3) then
      { s with currentStep := s.currentStep + 1, error := none }
    else s
  | .prev =>
    if 1 < s.currentStep then
      { s with currentStep := s.currentStep - 1, error := none }
    else s
  | .submitClick formValid =>
    if s.loading then s
    else if formValid then
      { s with error := none, loading := true, inFlight := s.inFlight + 1 }
    else s
  | .submitResolve storeResult =>
    if s.loading then
      { s with
          loading := false
          inFlight := s.inFlight - 1
          error :=
            match storeResult with
            | some e => some (submitErrorBanner e)
            | none => none }
    else s

/-- Run the form from its initial state through a sequence of events. -/
def runPipeline (evs : List FormEvent) : PipelineState :=
  evs.foldl pipelineStep pipelineInit

/-- The inductive invariant of the form machine: the step stays in
`{1, 2, 3}` and exactly one insert is in flight iff `loading` holds. -/
def PipelineInv (s : PipelineState) : Prop :=
  1 ≤ s.currentStep ∧ s.currentStep ≤ 3 ∧
    s.inFlight = (if s.loading then 1 else 0)

/-- A concrete registration row used for concrete evaluations. -/
def sampleReg : Registration :=
  { id := "r-1"
    user_id := "u-1"
    full_name := "John Doe"
    corporate_email := "john.doe@company.com"
    employee_id := "EMP12345"
    company_name := "Acme Corp"
    tshirt_size := "M"
    emergency_contact := "Jane Doe"
    emergency_phone := "9876543210"
    registration_date := "2024-09-28T06:30:00.000Z"
    status := "confirmed" }

/-- A second concrete row whose company name contains `" acme "` with the
surrounding spaces. -/
def paddedReg : Registration :=
  { sampleReg with
      id := "r-2"
      user_id := "u-2"
      company_name := "my acme corp" }

/-- Concrete valid form data with the boundary 2-character full name. -/
def sampleData : RegistrationFormData :=
  { fullName := "Al"
    corporateEmail := "al@company.com"
    employeeId := "EMP1"
    companyName := "Acme Corp"
    tshirtSize := "M"
    emergencyContact := "Jane Doe"
    emergencyPhone := "9876543210" }

/-- The invariant holds in the initial state. -/
theorem pipelineInv_init : PipelineInv pipelineInit := by
  refine ⟨Nat.le_refl 1, by decide, rfl⟩

/-- Every form event preserves the invariant. -/
theorem pipelineInv_step (s : PipelineState) (ev : FormEvent)
    (h : PipelineInv s) : PipelineInv (pipelineStep s ev) := by
  obtain ⟨h1, h2, h3⟩ := h
  cases ev with
  | next isValid =>
    by_cases hc : (isValid && decide (s.currentStep < 3)) = true
    · have hlt : s.currentStep < 3 := by
        simp at hc
        exact hc.2
      simp [pipelineStep, PipelineInv, hc, h3]
      omega
    · simp [pipelineStep, PipelineInv, hc, h3]
      exact ⟨h1, h2⟩
  | prev =>
    by_cases hc : 1 < s.currentStep
    · simp [pipelineStep, PipelineInv, hc, h3]
      omega
    · simp [pipelineStep, PipelineInv, hc, h3]
      exact ⟨h1, h2⟩
  | submitClick formValid =>
    by_cases hl : s.loading = true
    · simp [pipelineStep, PipelineInv, hl, h3]
      exact ⟨h1, h2⟩
    · have hl' : s.loading = false := by simpa using hl
      rw [hl'] at h3
      simp at h3
      by_cases hv : formValid = true
      · simp [pipelineStep, PipelineInv, hl', hv, h3]
        exact ⟨h1, h2⟩
      · simp [pipelineStep, PipelineInv, hl', hv, h3]
        exact ⟨h1, h2⟩
  | submitResolve storeResult =>
    by_cases hl : s.loading = true
    · have h3' : s.inFlight = 1 := by rw [h3, if_pos hl]
      simp [pipelineStep, PipelineInv, hl, h3']
      exact ⟨h1, h2⟩
    · have hl' : s.loading = false := by simpa using hl
      rw [hl'] at h3
      simp at h3
      simp [pipelineStep, PipelineInv, hl', h3]
      exact ⟨h1, h2⟩

/-- The invariant is preserved along any event sequence. -/
theorem pipelineInv_foldl :
    ∀ (evs : List FormEvent) (s : PipelineState), PipelineInv s →
      PipelineInv (evs.foldl pipelineStep s)
  | [], _, h => h
  | ev :: evs, s, h =>
    pipelineInv_foldl evs (pipelineStep s ev) (pipelineInv_step s ev h)

/-- The invariant holds in every reachable state of the form. -/
theorem pipelineInv_run (evs : List FormEvent) :
    PipelineInv (runPipeline evs) :=
  pipelineInv_foldl evs pipelineInit pipelineInv_init

/-- C9: the registration form's current step is always in {1, 2, 3}: it
starts at 1, `nextStep` only increments below step 3, `prevStep` only
decrements above step 1, and submit never moves the step, so no sequence
of next/back/submit events drives the step outside the range. -/
theorem C9_current_step_in_range (evs : List FormEvent) :
    pipelineInit.currentStep = 1 ∧
    1 ≤ (runPipeline evs).currentStep ∧
    (runPipeline evs).currentStep ≤ 3 :=
  ⟨rfl, (pipelineInv_run evs).1, (pipelineInv_run evs).2.1⟩

/-- C5: while an insert is in flight (`loading` is set), a further click
of the submit button is a no-op on the form state — the button carries
`disabled={loading}` — so along any event sequence at most one insert is
in flight at a time. -/
theorem C5_reentrant_submit_is_noop (evs : List FormEvent) (v : Bool) :
    ((runPipeline evs).loading = true →
      pipelineStep (runPipeline evs) (FormEvent.submitClick v)
        = runPipeline evs) ∧
    (runPipeline evs).inFlight ≤ 1 := by
  constructor
  · intro h
    simp [pipelineStep, h]
  · have h3 := (pipelineInv_run evs).2.2
    rw [h3]
    cases (runPipeline evs).loading <;> simp

/-- Witness for C5 at the concrete trace with one pending insert. -/
theorem C5_witness :
    pipelineStep (runPipeline [FormEvent.submitClick true])
        (FormEvent.submitClick true)
      = runPipeline [FormEvent.submitClick true] :=
  (C5_reentrant_submit_is_noop [FormEvent.submitClick true] true).1
    (by decide)

/-- C1: for every request to the admin page, no resolvable session user
redirects to the login route; otherwise the role is read from the user's
metadata, defaulting to `"user"` when absent or malformed (falsy), any
role other than exactly `"admin"` redirects to the dashboard route, and
only role `"admin"` proceeds to render the fetched registrations.  The
check is a total function: every session resolves to redirect-or-allow. -/
theorem C1_admin_access_gate (s : Option AuthUser)
    (rows : List Registration) :
    (s = none → adminPage s rows = AdminPageResult.redirectLogin) ∧
    (∀ u : AuthUser, s = some u →
      (u.role = none ∨ u.role = some "" → resolveRole u.role = "user") ∧
      (resolveRole u.role ≠ "admin" →
        adminPage s rows = AdminPageResult.redirectDashboard) ∧
      (resolveRole u.role = "admin" →
        adminPage s rows = AdminPageResult.renderTable rows)) ∧
    (adminPage s rows = AdminPageResult.redirectLogin ∨
      adminPage s rows = AdminPageResult.redirectDashboard ∨
      adminPage s rows = AdminPageResult.renderTable rows) := by
  refine ⟨?_, ?_, ?_⟩
  · intro h
    rw [h]
    rfl
  · intro u hu
    rw [hu]
    refine ⟨?_, ?_, ?_⟩
    · rintro (h | h) <;> simp [resolveRole, h]
    · intro h
      simp [adminPage, h]
    · intro h
      simp [adminPage, h]
  · cases s with
    | none => exact Or.inl rfl
    | some u =>
      by_cases h : resolveRole u.role = "admin"
      · exact Or.inr (Or.inr (by simp [adminPage, h]))
      · exact Or.inr (Or.inl (by simp [adminPage, h]))

/-- Witness for C1: a missing session redirects to login, a plain user is
sent to the dashboard, and an admin sees the registrations. -/
theorem C1_witness :
    adminPage none [] = AdminPageResult.redirectLogin ∧
    adminPage (some ⟨"u-2", some "user"⟩) []
      = AdminPageResult.redirectDashboard ∧
    adminPage (some ⟨"u-1", some "admin"⟩) [sampleReg]
      = AdminPageResult.renderTable [sampleReg] :=
  ⟨(C1_admin_access_gate none []).1 rfl,
   ((C1_admin_access_gate (some ⟨"u-2", some "user"⟩) []).2.1 _ rfl).2.1
     (by decide),
   ((C1_admin_access_gate (some ⟨"u-1", some "admin"⟩) [sampleReg]).2.1 _
     rfl).2.2 (by decide)⟩

/-- C2: the admin filter is a pure function of (rows, query): a query
that trims to empty returns the rows unchanged; the result is always a
sublist of the rows (original order preserved); and for a non-blank
query a row is kept exactly when its lower-cased company name contains
the lower-cased query — no other field is consulted. -/
theorem C2_filter_identity_and_match (rows : List Registration)
    (q : String) :
    (jsTrim q = "" → filteredRegistrations rows q = rows) ∧
    List.Sublist (filteredRegistrations rows q) rows ∧
    (jsTrim q ≠ "" → ∀ r : Registration,
      r ∈ filteredRegistrations rows q ↔
        r ∈ rows ∧
          jsIncludes (jsToLower r.company_name) (jsToLower q) = true) := by
  by_cases h : jsTrim q = ""
  · refine ⟨fun _ => by simp [filteredRegistrations, h], ?_,
      fun hq => absurd h hq⟩
    simp [filteredRegistrations, h]
  · refine ⟨fun hq => absurd hq h, ?_, ?_⟩
    · simp only [filteredRegistrations, h, if_false]
      exact List.filter_sublist rows
    · intro _ r
      simp [filteredRegistrations, h, List.mem_filter]

/-- Witness for C2: identity on a whitespace query and membership
characterization on a matching query, at concrete rows. -/
theorem C2_witness :
    filteredRegistrations [sampleReg, paddedReg] " "
      = [sampleReg, paddedReg] ∧
    (sampleReg ∈ filteredRegistrations [sampleReg, paddedReg] "ACME" ↔
      sampleReg ∈ [sampleReg, paddedReg] ∧
        jsIncludes (jsToLower sampleReg.company_name) (jsToLower "ACME")
          = true) :=
  ⟨(C2_filter_identity_and_match [sampleReg, paddedReg] " ").1 (by decide),
   (C2_filter_identity_and_match [sampleReg, paddedReg] "ACME").2.2
     (by decide) sampleReg⟩

/-- C10: the query is whitespace-trimmed only for the emptiness test, not
for matching: a whitespace-only query returns all rows, while a non-blank
query is matched untrimmed — `" acme "` does not match company
`"Acme Corp"` but does match `"my acme corp"`, which contains the padded
substring. -/
theorem C10_trim_only_for_emptiness (rows : List Registration)
    (q : String) :
    (jsTrim q = "" → filteredRegistrations rows q = rows) ∧
    (jsTrim q ≠ "" → filteredRegistrations rows q =
      rows.filter fun r =>
        jsIncludes (jsToLower r.company_name) (jsToLower q)) ∧
    filteredRegistrations [sampleReg] " acme " = [] ∧
    filteredRegistrations [paddedReg] " acme " = [paddedReg] := by
  refine ⟨fun h => by simp [filteredRegistrations, h],
    fun h => by simp [filteredRegistrations, h],
    by decide, by decide⟩

/-- Witness for C10: both branches of the trim test at concrete inputs. -/
theorem C10_witness :
    filteredRegistrations [sampleReg, paddedReg] "  "
      = [sampleReg, paddedReg] ∧
    filteredRegistrations [sampleReg, paddedReg] " acme "
      = [sampleReg, paddedReg].filter fun r =>
          jsIncludes (jsToLower r.company_name) (jsToLower " acme ") :=
  ⟨(C10_trim_only_for_emptiness [sampleReg, paddedReg] "  ").1 (by decide),
   (C10_trim_only_for_emptiness [sampleReg, paddedReg] " acme ").2.1
     (by decide)⟩

/-- C7: the admin view's load asks the store for all rows ordered by
`registration_date` descending; on success the fetched rows are rendered
with nothing logged, and on a fetch error the page still renders with
zero rows while the error is only logged — never a blocking failure. -/
theorem C7_admin_load_degrades (e : String) (rows : List Registration) :
    adminQueryOrder.column = "registration_date" ∧
    adminQueryOrder.ascending = false ∧
    (adminRenderOfFetch (Except.ok rows)).rows = rows ∧
    (adminRenderOfFetch (Except.ok rows)).loggedErrors = [] ∧
    (adminRenderOfFetch (Except.error e)).rows = [] ∧
    (adminRenderOfFetch (Except.error e)).loggedErrors
      = ["Error fetching registrations: " ++ e] :=
  ⟨rfl, rfl, rfl, rfl, rfl, rfl⟩

/-- C8: an authenticated user with no registration row gets the
registration form and never the status card; a user with exactly one row
gets the status card populated with that row and never the form. -/
theorem C8_dashboard_form_or_status (db : List Registration)
    (uid : String) :
    ((db.filter fun r => r.user_id == uid) = [] →
      dashboardView db uid = DashboardView.registrationForm uid ∧
      ∀ reg : Registration,
        dashboardView db uid ≠ DashboardView.statusCard reg) ∧
    (∀ reg : Registration,
      (db.filter fun r => r.user_id == uid) = [reg] →
        dashboardView db uid = DashboardView.statusCard reg ∧
        dashboardView db uid ≠ DashboardView.registrationForm uid) := by
  constructor
  · intro h
    have hv : dashboardView db uid = DashboardView.registrationForm uid := by
      simp [dashboardView, selectSingleByUser, h]
    refine ⟨hv, fun reg hc => ?_⟩
    rw [hv] at hc
    exact DashboardView.noConfusion hc
  · intro reg h
    have hv : dashboardView db uid = DashboardView.statusCard reg := by
      simp [dashboardView, selectSingleByUser, h]
    refine ⟨hv, fun hc => ?_⟩
    rw [hv] at hc
    exact DashboardView.noConfusion hc

/-- Witness for C8: with one concrete row, its owner sees the status card
and another user sees the form. -/
theorem C8_witness :
    dashboardView [sampleReg] "u-1" = DashboardView.statusCard sampleReg ∧
    dashboardView [sampleReg] "u-2"
      = DashboardView.registrationForm "u-2" :=
  ⟨((C8_dashboard_form_or_status [sampleReg] "u-1").2 sampleReg
      (by decide)).1,
   ((C8_dashboard_form_or_status [sampleReg] "u-2").1 (by decide)).1⟩

/-- A list always occurs at the head of itself followed by anything. -/
theorem leadsWith_append (l t : List Char) :
    leadsWith (l ++ t) l = true := by
  induction l with
  | nil => cases t <;> rfl
  | cons c cs ih => simp [leadsWith, ih]

/-- A string always occurs at the head of itself followed by anything. -/
theorem leadsWith_data_append (a t : String) :
    leadsWith (a ++ t).data a.data = true := by
  rw [String.data_append]
  exact leadsWith_append a.data t.data

/-- C3 counterexample: the t-shirt size is a string field of a
registration row, yet `handleExportCSV` serializes it bare — the fifth
field of the data row built from `sampleReg` is `M`, not the
double-quoted `"M"`, as the full serialized line shows. -/
theorem C3_counterexample :
    sampleReg.tshirt_size = "M" ∧
    (csvRowFields (fun d => d) sampleReg).get? 4 = some "M" ∧
    ("M" : String) ≠ quoteField "M" ∧
    csvRow (fun d => d) sampleReg
      = "\"John Doe\",\"john.doe@company.com\",\"EMP12345\",\"Acme Corp\",M,\"Jane Doe\",\"9876543210\",2024-09-28T06:30:00.000Z,confirmed" := by
  refine ⟨rfl, rfl, by decide, by decide⟩

/-- C3 (amended): `exportCsv` serializes the currently filtered row set:
its text is the fixed 9-column header line followed by one comma-joined
line per filtered row in order; the six free-text fields (full name,
email, employee id, company name, emergency contact, emergency phone)
are double-quote-wrapped while the t-shirt size, the locale-formatted
date and the status are emitted bare; each data line opens with the
double-quoted full name; the filename is `registrations_` + the ISO date
of the export + `.csv`. -/
theorem C3_export_csv (fmtDate : String → String) (isoToday : String)
    (rows : List Registration) (q : String) :
    (exportCsv fmtDate isoToday rows q).1
      = csvContent fmtDate (filteredRegistrations rows q) ∧
    joinSep "," csvHeaders
      = "Full Name,Corporate Email,Employee ID,Company Name,T-shirt Size,Emergency Contact,Emergency Phone,Registration Date,Status" ∧
    csvContent fmtDate (filteredRegistrations rows q)
      = joinSep "\n" (joinSep "," csvHeaders ::
          (filteredRegistrations rows q).map (csvRow fmtDate)) ∧
    (∀ r : Registration, csvRowFields fmtDate r
      = [quoteField r.full_name, quoteField r.corporate_email,
         quoteField r.employee_id, quoteField r.company_name,
         r.tshirt_size, quoteField r.emergency_contact,
         quoteField r.emergency_phone, fmtDate r.registration_date,
         r.status]) ∧
    (∀ r rs, leadsWith (csvContent fmtDate (r :: rs)).data
      (joinSep "," csvHeaders ++ "\n").data = true) ∧
    (∀ r : Registration,
      leadsWith (csvRow fmtDate r).data (quoteField r.full_name).data
        = true) ∧
    (exportCsv fmtDate isoToday rows q).2
      = "registrations_" ++ isoToday ++ ".csv" := by
  refine ⟨rfl, by decide, rfl, fun r => rfl, ?_, ?_, rfl⟩
  · intro r rs
    show leadsWith
      (joinSep "," csvHeaders ++ "\n" ++
        joinSep "\n" (csvRow fmtDate r :: rs.map (csvRow fmtDate))).data
      (joinSep "," csvHeaders ++ "\n").data = true
    exact leadsWith_data_append _ _
  · intro r
    show leadsWith
      (quoteField r.full_name ++ "," ++
        joinSep "," (csvRowFields fmtDate r).tail).data
      (quoteField r.full_name).data = true
    rw [String.append_assoc]
    exact leadsWith_data_append _ _

/-- C4 counterexample: a store rejection whose error message is the empty
string is not surfaced verbatim — `setError(err.message || fallback)`
replaces the falsy empty message with the generic fallback text. -/
theorem C4_counterexample :
    (onSubmit 3 [] sampleReg (some ⟨""⟩)).formError
      = some fallbackSubmitError ∧
    (onSubmit 3 [] sampleReg (some ⟨""⟩)).formError ≠ some "" ∧
    fallbackSubmitError
      = "An error occurred while submitting your registration" :=
  ⟨rfl, by decide, rfl⟩

/-- C4 (amended): when the final submit's insert is rejected by the
store, the store's error message is surfaced as the form-level banner —
verbatim whenever it is non-empty, and replaced by a generic fallback
when it is the empty string; the user stays on their step, nothing is
persisted, and no refresh happens.  When the insert succeeds, the row is
persisted and `router.refresh()` triggers the hosting page's full
re-fetch of registration status, with no error banner. -/
theorem C4_submit_error_handling (step : Nat) (db : List Registration)
    (row : Registration) (e : StoreError) :
    (e.message ≠ "" →
      (onSubmit step db row (some e)).formError = some e.message) ∧
    (onSubmit step db row (some e)).step = step ∧
    (onSubmit step db row (some e)).db = db ∧
    (onSubmit step db row (some e)).refreshTriggered = false ∧
    (onSubmit step db row none).formError = none ∧
    (onSubmit step db row none).db = db ++ [row] ∧
    (onSubmit step db row none).step = step ∧
    (onSubmit step db row none).refreshTriggered = true := by
  refine ⟨fun h => ?_, rfl, rfl, rfl, rfl, rfl, rfl, rfl⟩
  simp [onSubmit, submitErrorBanner, h]

/-- Witness for C4 at a concrete uniqueness-violation message. -/
theorem C4_witness :
    (onSubmit 3 [] sampleReg
        (some ⟨"duplicate key value violates unique constraint"⟩)).formError
      = some "duplicate key value violates unique constraint" :=
  (C4_submit_error_handling 3 [] sampleReg
    ⟨"duplicate key value violates unique constraint"⟩).1 (by decide)

/-- C6: from the steps at which the Next control is rendered
(`currentStep < 3`), `next()` validates only that step's fields — step 1
depends only on full name, corporate email and employee id, step 2 only
on the company name, step 3 only on t-shirt size and the emergency
contact fields — advancing exactly one step when they all validate and
staying put with field errors surfaced otherwise; a 2-character full name
(`"Al"`) passes step 1 while a 1-character one (`"A"`) is blocked with
the "at least 2 characters" error. -/
theorem C6_per_step_validation (emailValid : String → Bool)
    (d : RegistrationFormData) (s : Nat) (hs : s = 1 ∨ s = 2) :
    (validateStep emailValid s d = true →
      nextStep emailValid s d = s + 1) ∧
    (validateStep emailValid s d = false →
      nextStep emailValid s d = s ∧ stepErrors emailValid s d ≠ []) ∧
    (∀ d' : RegistrationFormData,
      d'.fullName = d.fullName → d'.corporateEmail = d.corporateEmail →
      d'.employeeId = d.employeeId →
      stepErrors emailValid 1 d' = stepErrors emailValid 1 d) ∧
    (∀ d' : RegistrationFormData, d'.companyName = d.companyName →
      stepErrors emailValid 2 d' = stepErrors emailValid 2 d) ∧
    (∀ d' : RegistrationFormData,
      d'.tshirtSize = d.tshirtSize →
      d'.emergencyContact = d.emergencyContact →
      d'.emergencyPhone = d.emergencyPhone →
      stepErrors emailValid 3 d' = stepErrors emailValid 3 d) ∧
    (d.fullName = "Al" → emailValid d.corporateEmail = true →
      1 ≤ d.employeeId.length → nextStep emailValid 1 d = 2) ∧
    (d.fullName = "A" →
      nextStep emailValid 1 d = 1 ∧
      "Full name must be at least 2 characters"
        ∈ stepErrors emailValid 1 d) := by
  have hlt : s < 3 := by rcases hs with h | h <;> omega
  refine ⟨?_, ?_, ?_, ?_, ?_, ?_, ?_⟩
  · intro hval
    simp [nextStep, hval, hlt]
  · intro hval
    constructor
    · simp [nextStep, hval]
    · intro hnil
      rw [validateStep, hnil] at hval
      simp at hval
  · intro d' e1 e2 e3
    simp [stepErrors, e1, e2, e3]
  · intro d' e1
    simp [stepErrors, e1]
  · intro d' e1 e2 e3
    simp [stepErrors, e1, e2, e3]
  · intro hfn hem hid
    have g1 : fullNameError d.fullName = none := by
      rw [hfn]
      decide
    have g2 : corporateEmailError emailValid d.corporateEmail = none := by
      simp [corporateEmailError, hem]
    have g3 : employeeIdError d.employeeId = none := by
      simp only [employeeIdError, if_neg (by omega : ¬d.employeeId.length < 1)]
    simp [nextStep, validateStep, stepErrors, g1, g2, g3]
  · intro hfn
    have g1 : fullNameError d.fullName
        = some "Full name must be at least 2 characters" := by
      rw [hfn]
      decide
    have hne : stepErrors emailValid 1 d
        = "Full name must be at least 2 characters" ::
            ([corporateEmailError emailValid d.corporateEmail,
              employeeIdError d.employeeId].filterMap id) := by
      simp [stepErrors, g1]
    constructor
    · simp [nextStep, validateStep, hne]
    · rw [hne]
      exact List.mem_cons_self _ _

/-- Witness for C6: with an always-true email validator and concrete form
data, step 1 advances on the 2-character full name and is blocked on the
1-character one. -/
theorem C6_witness :
    nextStep (fun _ => true) 1 sampleData = 2 ∧
    nextStep (fun _ => true) 1 { sampleData with fullName := "A" } = 1 :=
  ⟨(C6_per_step_validation (fun _ => true) sampleData 1
      (Or.inl rfl)).2.2.2.2.2.1 rfl rfl (by decide),
   ((C6_per_step_validation (fun _ => true)
      { sampleData with fullName := "A" } 1
      (Or.inl rfl)).2.2.2.2.2.2 rfl).1⟩

end SiliconMile
